import Mathlib

/-!
Shallow embedding of the direct-to-storage upload flow of the
cloudflare-employee-r2 repository.

Client side (src/upload/UploadPage.tsx):
  - `maxSize`, `refreshList`, `upload`, `putWithProgress`.
Shared client helper (src/shared/api.ts):
  - `apiGet` (here specialised to the listing endpoint as `apiGetList`).
Server side (worker/index.ts):
  - the itty-router route table, modelled by `routeFor`.

Asynchronous browser I/O is embedded by passing the behaviour of the
network explicitly: each server-facing call is given its outcome as a
parameter (status / parsed body / network failure), and the orchestrator
is a pure function from the current UI state and those outcomes to the
final UI state, the list of alert messages shown, the list of network
requests issued, and the uncaught exception (if any) that the attempt
produced.
-/

namespace UploadFlow

/-- An upload candidate: the selected `File`.  `byteSize` is `file.size`,
`mimeType` is `file.type` (the empty string models an absent type, which is
falsy in JS). -/
structure Candidate where
  name : String
  byteSize : Nat
  mimeType : String
deriving Repr, DecidableEq

/-- A stored object as returned by `GET /api/r2/list`
(worker/index.ts, the `objects` map). -/
structure StoredObject where
  key : String
  size : Nat
  uploaded : String
  httpEtag : String
deriving Repr, DecidableEq

/-- The UI-visible state of the upload page: the `file`, `progress` and
`objects` React state hooks of `UploadPage`. -/
structure UIState where
  file : Option Candidate
  progress : Int
  objects : List StoredObject
deriving Repr, DecidableEq

/-- State at construction: `useState(null)`, `useState(0)`, `useState([])`. -/
def initialState : UIState := { file := none, progress := 0, objects := [] }

/-- `const [maxSize] = useState(1024 * 1024 * 1024)` (UploadPage.tsx line 8). -/
def maxSize : Nat := 1024 * 1024 * 1024

/-! ## Upload transport: `putWithProgress` -/

/-- One `xhr.upload.onprogress` event: `e.lengthComputable`, `e.loaded`,
`e.total`. -/
structure ProgressEvent where
  lengthComputable : Bool
  loaded : Nat
  total : Nat
deriving Repr, DecidableEq

/-- How the XHR terminates: `onload` fires with a status (and statusText), or
`onerror` fires because the network transport failed before any response. -/
inductive XhrTerminal where
  | response (status : Nat) (statusText : String)
  | networkError
deriving Repr, DecidableEq

/-- The behaviour of the network during one `putWithProgress` call: the
progress events delivered, then the terminal event. -/
structure TransportBehavior where
  events : List ProgressEvent
  terminal : XhrTerminal
deriving Repr, DecidableEq

/-- JS `Math.round` on a (nonnegative) number: round half up. -/
def jsRound (q : ℚ) : ℤ := ⌊q + 1 / 2⌋

/-- `Math.round((e.loaded / e.total) * 100)` (UploadPage.tsx line 43). -/
def progressValue (loaded total : Nat) : ℤ :=
  jsRound ((loaded : ℚ) / (total : ℚ) * 100)

/-- `file.type || 'application/octet-stream'` (UploadPage.tsx line 40):
the empty string is falsy, anything else is kept. -/
def contentTypeFor (mime : String) : String :=
  if mime = "" then "application/octet-stream" else mime

/-- The single HTTP request that `putWithProgress` opens and sends:
`xhr.open('PUT', url, true)`, `xhr.setRequestHeader('Content-Type', ...)`,
`xhr.send(file)` — the whole file is the body. -/
structure PutRequest where
  method : String
  url : String
  contentType : String
  body : Candidate
deriving Repr, DecidableEq

/-- The terminal outcome of the returned promise. -/
inductive PutResult where
  | resolved
  | rejected (msg : String)
deriving Repr, DecidableEq

/-- The `onload` / `onerror` handlers (UploadPage.tsx lines 46-50):
resolve when `200 <= status < 300`, otherwise reject with a descriptive
error; reject with a network error message when no response arrived. -/
def putTerminal : XhrTerminal → PutResult
  | .response s txt =>
      if 200 ≤ s ∧ s < 300 then .resolved
      else .rejected ("Upload failed: " ++ txt ++ " " ++ toString s)
  | .networkError => .rejected "XHR network error"

/-- Everything one invocation of `putWithProgress` does: the requests it
issues, the percentage values it passes to `onProgress`, and its terminal
outcome. -/
structure PutOutput where
  requests : List PutRequest
  progressReports : List Int
  result : PutResult
deriving Repr, DecidableEq

/-- `putWithProgress(url, file, onProgress)` (UploadPage.tsx lines 36-53):
opens exactly one PUT of the whole file, reports
`Math.round((loaded/total)*100)` for each event with `lengthComputable`
(and nothing for the others), and settles once according to `putTerminal`. -/
def putWithProgress (url : String) (f : Candidate) (tb : TransportBehavior) :
    PutOutput :=
  { requests := [{ method := "PUT", url := url,
                   contentType := contentTypeFor f.mimeType, body := f }]
    progressReports := tb.events.filterMap fun e =>
      if e.lengthComputable then some (progressValue e.loaded e.total) else none
    result := putTerminal tb.terminal }

/-- The value held by the `progress` state hook after the event stream: each
`lengthComputable` event calls `setProgress` (last value wins). -/
def applyProgress (p0 : Int) (events : List ProgressEvent) : Int :=
  events.foldl
    (fun acc e =>
      if e.lengthComputable then progressValue e.loaded e.total else acc) p0

/-! ## Listing: `apiGet` and `refreshList` -/

/-- The parsed JSON body of a listing response; the `objects` field may be
absent. -/
structure ListBody where
  objects : Option (List StoredObject)
deriving Repr, DecidableEq

/-- The response observed by `apiGet('/api/r2/list')`: `ok` is `res.ok`,
`contentTypeHasJson` is whether the content-type header contains
`application/json`, and `parsed` is the result of `res.json()` (`none` when
parsing throws). -/
structure ListerHttpResponse where
  ok : Bool
  contentTypeHasJson : Bool
  parsed : Option ListBody
deriving Repr, DecidableEq

/-- Behaviour of the network during the listing fetch: the fetch itself may
reject, or a response arrives. -/
inductive ListerFetch where
  | reject
  | resp (r : ListerHttpResponse)
deriving Repr, DecidableEq

/-- `apiGet` (src/shared/api.ts lines 2-20) specialised to the listing call:
a rejected fetch propagates (there is no try/catch around `fetch`); a
non-ok response, a non-JSON content type, or a JSON parse error all yield
`null` (here `Except.ok none`); otherwise the parsed body is returned. -/
def apiGetList : ListerFetch → Except String (Option ListBody)
  | .reject => .error "list fetch rejected"
  | .resp r =>
      if !r.ok then .ok none
      else if !r.contentTypeHasJson then .ok none
      else match r.parsed with
        | none => .ok none
        | some b => .ok (some b)

/-- `refreshList` (UploadPage.tsx lines 14-17):
`const res = await apiGet('/api/r2/list'); setObjects(res.objects || [])`.
When `apiGet` yields `null`, evaluating `res.objects` throws a TypeError;
when it yields a body, the collection is replaced by `res.objects || []`. -/
def refreshList (st : UIState) (lf : ListerFetch) : Except String UIState :=
  match apiGetList lf with
  | .error e => .error e
  | .ok none => .error "TypeError: cannot read properties of null (reading objects)"
  | .ok (some b) => .ok { st with objects := b.objects.getD [] }

/-! ## Presign fetch -/

/-- The parsed JSON body of the presign response; the `url` field may be
absent (and, being a JS truthiness check, an empty string counts as
absent). -/
structure PresignBody where
  url : Option String
deriving Repr, DecidableEq

/-- `!payload?.url` (UploadPage.tsx line 26) is false exactly when the body
has a truthy `url`. -/
def urlTruthy (b : PresignBody) : Bool :=
  match b.url with
  | some s => !s.isEmpty
  | none => false

/-- Behaviour of the network during the presign fetch: the fetch may reject;
otherwise a response with some HTTP status arrives whose body parses to a
`PresignBody` or fails to parse (`none`). -/
inductive PresignOutcome where
  | reject
  | resp (status : Nat) (parsed : Option PresignBody)
deriving Repr, DecidableEq

/-- `'presign failed: ' + JSON.stringify(payload)` (UploadPage.tsx line 26). -/
def presignFailMsg (b : PresignBody) : String :=
  "presign failed: " ++
    (match b.url with
     | some s => "\x7b\"url\":\"" ++ s ++ "\"\x7d"
     | none => "\x7b\x7d")

/-! ## Upload orchestrator: `upload` -/

/-- The behaviour of the network during one whole upload attempt. -/
structure UploadEnv where
  presign : PresignOutcome
  transport : TransportBehavior
  lister : ListerFetch
deriving Repr, DecidableEq

/-- A network request initiated during the attempt. -/
inductive NetCall where
  | presignCall (filename contentType : String)
  | putCall (r : PutRequest)
  | listCall
deriving Repr, DecidableEq

/-- Everything one invocation of `upload` does: the final UI state, the
alerts shown (in order), the network calls initiated (in order), and the
message of the uncaught exception when one of the awaited promises rejected
with nothing to catch it (or when the fire-and-forget `refreshList` threw). -/
structure UploadResult where
  state : UIState
  alerts : List String
  calls : List NetCall
  thrown : Option String
deriving Repr, DecidableEq

/-- `upload` (UploadPage.tsx lines 19-34), line by line:
no file → alert and return; oversize → alert and return; fetch the presign
URL and parse its body; a falsy `payload?.url` → alert and return (the HTTP
status is never inspected); otherwise PUT via `putWithProgress`, whose
progress callbacks drive `setProgress`; on resolve, alert success, reset
progress, clear the file and fire `refreshList`; any rejected await
propagates out of `upload` uncaught. -/
def upload (st : UIState) (env : UploadEnv) : UploadResult :=
  match st.file with
  | none => { state := st, alerts := ["choose a file"], calls := [], thrown := none }
  | some f =>
    if f.byteSize > maxSize then
      { state := st, alerts := ["file exceeds max size (1GB)"], calls := [],
        thrown := none }
    else
      let c0 : List NetCall := [.presignCall f.name f.mimeType]
      match env.presign with
      | .reject =>
          { state := st, alerts := [], calls := c0,
            thrown := some "presign fetch rejected" }
      | .resp _status none =>
          { state := st, alerts := [], calls := c0,
            thrown := some "presign body parse error" }
      | .resp _status (some payload) =>
          if urlTruthy payload then
            let u := payload.url.getD ""
            let out := putWithProgress u f env.transport
            let st1 := { st with
              progress := applyProgress st.progress env.transport.events }
            let c1 := c0 ++ out.requests.map NetCall.putCall
            match out.result with
            | .rejected msg =>
                { state := st1, alerts := [], calls := c1, thrown := some msg }
            | .resolved =>
                let st2 := { st1 with progress := 0, file := none }
                match refreshList st2 env.lister with
                | .ok st3 =>
                    { state := st3, alerts := ["Upload complete"],
                      calls := c1 ++ [.listCall], thrown := none }
                | .error e =>
                    { state := st2, alerts := ["Upload complete"],
                      calls := c1 ++ [.listCall], thrown := some e }
          else
            { state := st, alerts := [presignFailMsg payload], calls := c0,
              thrown := none }

/-! ## Worker route table -/

/-- Which handler of the itty-router in worker/index.ts a request is
dispatched to, in registration order: `POST /api/employees`,
`GET /api/employees`, `GET /api/r2/list`, `GET /_debug/env`, then the
`GET *` static-asset catch-all (`serveAsset`). -/
inductive WorkerRoute where
  | employeesCreate
  | employeesList
  | r2List
  | debugEnv
  | staticAsset
  | noMatch
deriving Repr, DecidableEq

/-- The route table of worker/index.ts (lines 22-117): first registered
match wins; any other GET falls to the static-asset handler. -/
def routeFor (method path : String) : WorkerRoute :=
  if method = "POST" ∧ path = "/api/employees" then .employeesCreate
  else if method = "GET" ∧ path = "/api/employees" then .employeesList
  else if method = "GET" ∧ path = "/api/r2/list" then .r2List
  else if method = "GET" ∧ path = "/_debug/env" then .debugEnv
  else if method = "GET" then .staticAsset
  else .noMatch

/-- Follows the spec's words (§4.2 / §6): the listing step's result as the
spec describes it — any error yields an empty sequence, a body yields its
`objects` (absent shape treated as empty).  Used only to compare the spec's
described "fresh lister result" with what the code computes. -/
def specListerFreshResult : ListerFetch → List StoredObject
  | .reject => []
  | .resp r =>
      if !r.ok then []
      else if !r.contentTypeHasJson then []
      else match r.parsed with
        | none => []
        | some b => b.objects.getD []

/-! ## Concrete fixtures used by witnesses and counterexamples -/

/-- The end-to-end scenario candidate of spec §8. -/
def candEx : Candidate :=
  { name := "report.pdf", byteSize := 2048, mimeType := "application/pdf" }

/-- A candidate whose file input reported no MIME type. -/
def candNoType : Candidate :=
  { name := "blob.bin", byteSize := 5, mimeType := "" }

/-- A candidate one byte over the 1 GiB policy limit. -/
def candBig : Candidate :=
  { name := "big.bin", byteSize := 1073741825, mimeType := "application/zip" }

/-- The stored object of the spec §8 end-to-end scenario. -/
def objEx : StoredObject :=
  { key := "uploads/report.pdf", size := 2048, uploaded := "t0", httpEtag := "e1" }

/-- A pre-existing (stale) listing entry. -/
def objOld : StoredObject :=
  { key := "uploads/old.bin", size := 7, uploaded := "t-1", httpEtag := "e0" }

/-- A listing fetch that succeeds with exactly `objEx`. -/
def listerOk : ListerFetch :=
  .resp { ok := true, contentTypeHasJson := true,
          parsed := some { objects := some [objEx] } }

/-- A listing fetch that fails with an HTTP error status (`res.ok` false). -/
def listerHttpError : ListerFetch :=
  .resp { ok := false, contentTypeHasJson := false, parsed := none }

/-- A presign response carrying a usable URL. -/
def presignOk : PresignOutcome :=
  .resp 200 (some { url := some "https://store.example/abc" })

/-- A transport run with no progress events that ends in HTTP 200. -/
def transportOk : TransportBehavior :=
  { events := [], terminal := .response 200 "OK" }

/-- State with `candEx` selected, progress 0 and one stale listing entry. -/
def stSelected : UIState :=
  { file := some candEx, progress := 0, objects := [objOld] }

/-- Network behaviour for the happy-path scenario of spec §8. -/
def envHappy : UploadEnv :=
  { presign := presignOk, transport := transportOk, lister := listerOk }

/-- C1 counterexample input: HTTP 500 on the presign call, but the error
body still carries a (truthy) `url` field. -/
def envStatus500 : UploadEnv :=
  { presign := .resp 500 (some { url := some "https://store.example/abc" })
    transport := transportOk
    lister := listerOk }

/-- C2 counterexample input: presign succeeds, the transport reports 50%
and then fails at the network level. -/
def envTransportDies : UploadEnv :=
  { presign := presignOk
    transport := { events := [{ lengthComputable := true, loaded := 50, total := 100 }]
                   terminal := .networkError }
    lister := listerOk }

/-- C6 counterexample input: the upload itself succeeds but the subsequent
listing fetch returns an HTTP error. -/
def envListerDies : UploadEnv :=
  { presign := presignOk, transport := transportOk, lister := listerHttpError }

/-- A transport run for the progress contract: events (50,100), a
non-`lengthComputable` event, then (100,100), ending in HTTP 200. -/
def tbProgress : TransportBehavior :=
  { events := [{ lengthComputable := true, loaded := 50, total := 100 },
               { lengthComputable := false, loaded := 3, total := 0 },
               { lengthComputable := true, loaded := 100, total := 100 }]
    terminal := .response 200 "OK" }

/-! ## Helper lemmas -/

/-- Concrete evaluation of the rounded percentage at (50, 100). -/
theorem progressValue_50_100 : progressValue 50 100 = 50 := by
  norm_num [progressValue, jsRound]

/-- Concrete evaluation of the rounded percentage at (100, 100). -/
theorem progressValue_100_100 : progressValue 100 100 = 100 := by
  norm_num [progressValue, jsRound]

/-- Bounds of the rounded percentage: with a positive total and
`loaded ≤ total`, the reported value lies in [0, 100]. -/
theorem progressValue_mem_range (l t : Nat) (ht : 0 < t) (hl : l ≤ t) :
    0 ≤ progressValue l t ∧ progressValue l t ≤ 100 := by
  have htq : (0 : ℚ) < (t : ℚ) := by exact_mod_cast ht
  have hq0 : (0 : ℚ) ≤ (l : ℚ) / (t : ℚ) := by positivity
  have hq1 : (l : ℚ) / (t : ℚ) ≤ 1 := by
    rw [div_le_one htq]; exact_mod_cast hl
  unfold progressValue jsRound
  constructor
  · exact Int.floor_nonneg.mpr (by nlinarith)
  · have h101 : (l : ℚ) / (t : ℚ) * 100 + 1 / 2 < ((101 : ℤ) : ℚ) := by
      push_cast; nlinarith
    have := Int.floor_lt.mpr h101
    omega

/-! ## Claim theorems -/

/-- Claim C10: if the upload action is triggered while no candidate is
selected (`file` is null), the orchestrator makes no network call and
leaves all state unchanged, showing only a choose-a-file message. -/
theorem upload_no_file_noop (st : UIState) (env : UploadEnv)
    (hf : st.file = none) :
    upload st env =
      { state := st, alerts := ["choose a file"], calls := [], thrown := none } := by
  unfold upload
  rw [hf]

/-- Witness for C10 at the initial state. -/
theorem upload_no_file_noop_witness :
    upload initialState envHappy =
      { state := initialState, alerts := ["choose a file"], calls := [],
        thrown := none } :=
  upload_no_file_noop initialState envHappy rfl

/-- Claim C3: a candidate strictly larger than 1,073,741,824 bytes is
rejected with a user-visible message before any network call: the issuer,
the transport and the lister are all never contacted, and the state is
unchanged. -/
theorem upload_oversize_rejected_locally (st : UIState) (env : UploadEnv)
    (f : Candidate) (hf : st.file = some f) (hsz : 1073741824 < f.byteSize) :
    (upload st env).alerts = ["file exceeds max size (1GB)"] ∧
    (upload st env).calls = [] ∧
    (upload st env).state = st ∧
    (upload st env).thrown = none := by
  have hgt : f.byteSize > maxSize := by
    unfold maxSize; omega
  unfold upload
  rw [hf]
  simp [hgt]

/-- Witness for C3 at a candidate of 1,073,741,825 bytes. -/
theorem upload_oversize_rejected_locally_witness :
    (upload { file := some candBig, progress := 0, objects := [] } envHappy).alerts
        = ["file exceeds max size (1GB)"] ∧
    (upload { file := some candBig, progress := 0, objects := [] } envHappy).calls = [] ∧
    (upload { file := some candBig, progress := 0, objects := [] } envHappy).state
        = { file := some candBig, progress := 0, objects := [] } ∧
    (upload { file := some candBig, progress := 0, objects := [] } envHappy).thrown
        = none :=
  upload_oversize_rejected_locally _ envHappy candBig rfl (by decide)

/-- Claim C1, counterexample: the orchestrator never inspects the presign
HTTP status.  With status 500 (a non-success status) and a body that still
carries a `url`, the PUT is issued anyway, so "non-success status …
never invokes the upload transport" is false on the code. -/
theorem presign_status_ignored_cex :
    (500 < 200 ∨ 300 ≤ 500) ∧
    (upload stSelected envStatus500).calls =
      [.presignCall "report.pdf" "application/pdf",
       .putCall { method := "PUT", url := "https://store.example/abc",
                  contentType := "application/pdf", body := candEx },
       .listCall] := by
  refine ⟨Or.inr (by omega), ?_⟩
  decide

/-- Claim C1 as amended: the presign decision is made solely on the parsed
body — whenever the body lacks a truthy `url`, the attempt is surfaced as a
presign failure (one alert, nothing thrown) and the transport is never
invoked (no PUT is issued); the HTTP status is not consulted. -/
theorem presign_missing_url_aborts (st : UIState) (env : UploadEnv)
    (f : Candidate) (s : Nat) (b : PresignBody)
    (hf : st.file = some f) (hsz : f.byteSize ≤ maxSize)
    (hp : env.presign = .resp s (some b)) (hu : urlTruthy b = false) :
    (upload st env).alerts = [presignFailMsg b] ∧
    (upload st env).calls = [.presignCall f.name f.mimeType] ∧
    (upload st env).state = st ∧
    (upload st env).thrown = none := by
  have hgt : ¬ f.byteSize > maxSize := by omega
  unfold upload
  rw [hf]
  simp [hgt, hp, hu]

/-- Witness for the amended C1: a 200 response whose body has no `url`. -/
theorem presign_missing_url_aborts_witness :
    (upload stSelected
        { presign := .resp 200 (some { url := none }),
          transport := transportOk, lister := listerOk
          : UploadEnv }).alerts = [presignFailMsg { url := none }] :=
  (presign_missing_url_aborts stSelected _ candEx 200 { url := none }
    rfl (by decide) rfl rfl).1

/-- Claim C4: each `putWithProgress` invocation produces exactly one
terminal outcome — it resolves iff the response status is in [200, 300),
rejects with a descriptive message for any status outside that range, and
rejects when the network transport fails before any response; it opens
exactly one request (no retries). -/
theorem put_terminal_outcome (url : String) (f : Candidate)
    (tb : TransportBehavior) :
    ((putWithProgress url f tb).result = .resolved ↔
      ∃ s txt, tb.terminal = .response s txt ∧ 200 ≤ s ∧ s < 300) ∧
    (∀ s txt, tb.terminal = .response s txt → ¬(200 ≤ s ∧ s < 300) →
      (putWithProgress url f tb).result =
        .rejected ("Upload failed: " ++ txt ++ " " ++ toString s)) ∧
    (tb.terminal = .networkError →
      (putWithProgress url f tb).result = .rejected "XHR network error") ∧
    (putWithProgress url f tb).requests.length = 1 := by
  refine ⟨?_, ?_, ?_, rfl⟩
  · constructor
    · intro h
      cases hterm : tb.terminal with
      | response s txt =>
        refine ⟨s, txt, rfl, ?_⟩
        by_contra hrange
        simp [putWithProgress, putTerminal, hterm, hrange] at h
      | networkError =>
        simp [putWithProgress, putTerminal, hterm] at h
    · rintro ⟨s, txt, hterm, hrange⟩
      simp [putWithProgress, putTerminal, hterm, hrange]
  · intro s txt hterm hrange
    simp [putWithProgress, putTerminal, hterm, hrange]
  · intro hterm
    simp [putWithProgress, putTerminal, hterm]

/-- Witness for C4: a 204 response resolves; a network failure rejects. -/
theorem put_terminal_outcome_witness :
    (putWithProgress "https://store.example/abc" candEx
        { events := [], terminal := .response 204 "No Content" }).result
      = .resolved ∧
    (putWithProgress "https://store.example/abc" candEx
        { events := [], terminal := .networkError }).result
      = .rejected "XHR network error" :=
  ⟨(put_terminal_outcome "https://store.example/abc" candEx
      { events := [], terminal := .response 204 "No Content" }).1.mpr
      ⟨204, "No Content", rfl, by omega, by omega⟩,
   (put_terminal_outcome "https://store.example/abc" candEx
      { events := [], terminal := .networkError }).2.2.1 rfl⟩

/-- Claim C9: every transport invocation issues exactly one request, with
method PUT, the full candidate as body, and a Content-Type header equal to
the candidate's mimeType — falling back to application/octet-stream exactly
when the mimeType is absent (empty). -/
theorem put_request_shape (url : String) (f : Candidate)
    (tb : TransportBehavior) :
    (putWithProgress url f tb).requests =
      [{ method := "PUT", url := url, contentType := contentTypeFor f.mimeType,
         body := f }] ∧
    (f.mimeType = "" → contentTypeFor f.mimeType = "application/octet-stream") ∧
    (f.mimeType ≠ "" → contentTypeFor f.mimeType = f.mimeType) := by
  refine ⟨rfl, ?_, ?_⟩ <;> intro h <;> simp [contentTypeFor, h]

/-- Witness for C9: the fallback fires for an empty mimeType and only
then. -/
theorem put_request_shape_witness :
    contentTypeFor candNoType.mimeType = "application/octet-stream" ∧
    contentTypeFor candEx.mimeType = "application/pdf" ∧
    (putWithProgress "https://store.example/abc" candEx transportOk).requests =
      [{ method := "PUT", url := "https://store.example/abc",
         contentType := "application/pdf", body := candEx }] := by
  have h1 := put_request_shape "https://store.example/abc" candNoType transportOk
  have h2 := put_request_shape "https://store.example/abc" candEx transportOk
  refine ⟨h1.2.1 rfl, h2.2.2 (by decide), ?_⟩
  rw [h2.1]
  decide

/-- Claim C5, code-bug demonstration: a parsed listing body whose `objects`
key is missing does become the empty collection, but a listing fetch that
errors (non-ok status, so `apiGet` returns null — exactly the case its own
comment says "caller should handle") makes `refreshList` throw a TypeError
on `res.objects` instead of yielding the empty collection. -/
theorem refreshList_error_throws :
    refreshList stSelected
        (.resp { ok := true, contentTypeHasJson := true,
                 parsed := some { objects := none } })
      = .ok { stSelected with objects := [] } ∧
    refreshList stSelected listerHttpError
      = .error "TypeError: cannot read properties of null (reading objects)" ∧
    refreshList stSelected .reject = .error "list fetch rejected" :=
  ⟨rfl, rfl, rfl⟩

/-- Claim C7: whenever a progress event allows the ratio to be computed
(`lengthComputable`, with 0 < total and loaded ≤ total), the transport
reports round(loaded/total * 100), an integer in [0, 100]; events whose
total cannot be determined are simply not reported and do not affect the
terminal outcome. -/
theorem progress_report_contract (url : String) (f : Candidate)
    (tb : TransportBehavior) (loaded total : Nat)
    (ht : 0 < total) (hl : loaded ≤ total) :
    (putWithProgress url f tb).progressReports =
      tb.events.filterMap (fun e =>
        if e.lengthComputable then some (progressValue e.loaded e.total)
        else none) ∧
    ((∀ e ∈ tb.events, e.lengthComputable = false) →
      (putWithProgress url f tb).progressReports = []) ∧
    progressValue loaded total = jsRound ((loaded : ℚ) / (total : ℚ) * 100) ∧
    0 ≤ progressValue loaded total ∧
    progressValue loaded total ≤ 100 ∧
    (putWithProgress url f tb).result = putTerminal tb.terminal := by
  obtain ⟨h0, h100⟩ := progressValue_mem_range loaded total ht hl
  refine ⟨rfl, ?_, rfl, h0, h100, rfl⟩
  intro hall
  simp only [putWithProgress]
  rw [List.filterMap_eq_nil_iff]
  intro e he
  simp [hall e he]

/-- Witness for C7: the spec §8 event stream (50,100), a
non-lengthComputable event, (100,100) yields the reports [50, 100]. -/
theorem progress_report_contract_witness :
    (putWithProgress "https://store.example/abc" candEx tbProgress).progressReports
      = [50, 100] ∧
    0 ≤ progressValue 50 100 ∧ progressValue 50 100 ≤ 100 := by
  have h := progress_report_contract "https://store.example/abc" candEx
    tbProgress 50 100 (by omega) (by omega)
  refine ⟨?_, h.2.2.2.1, h.2.2.2.2.1⟩
  rw [h.1]
  simp [tbProgress, progressValue_50_100, progressValue_100_100]

/-- Claim C8, code-bug demonstration: the worker router has no
`/api/r2/presign` route at all — a GET of that path is dispatched to the
same static-asset catch-all as any unknown page, so the server never
answers it with a `{ url }` JSON body. -/
theorem presign_route_missing :
    routeFor "GET" "/api/r2/presign" = .staticAsset ∧
    routeFor "GET" "/api/r2/presign" = routeFor "GET" "/no/such/page" ∧
    routeFor "GET" "/api/r2/list" = .r2List := by
  refine ⟨?_, ?_, ?_⟩ <;> decide

/-- Claim C2, counterexample: a transport failure is not surfaced and the
state does not return to Idle — after presign success, a 50% progress event
and then a network error, no alert at all is shown, the rejection escapes
`upload` uncaught, progress is stuck at 50 and the candidate is still
selected. -/
theorem transport_failure_not_idle_cex :
    (upload stSelected envTransportDies).alerts = [] ∧
    (upload stSelected envTransportDies).thrown = some "XHR network error" ∧
    (upload stSelected envTransportDies).state.progress = 50 ∧
    (upload stSelected envTransportDies).state.file = some candEx := by
  refine ⟨rfl, rfl, ?_, rfl⟩
  show applyProgress (0 : ℤ)
      [({ lengthComputable := true, loaded := 50, total := 100 } : ProgressEvent)] = 50
  simp [applyProgress, progressValue_50_100]

/-- Claim C2 as amended: every failing attempt leaves the selected
candidate and the object collection unchanged (the candidate is never
cleared, so the orchestrator does not return to the initial Idle state);
failures the code detects by inspection (no candidate, oversize candidate,
presign body without a truthy url) show exactly one alert, throw nothing
and leave progress unchanged, while a rejected presign fetch, an
unparseable presign body or a transport failure shows no message at all and
surfaces only an uncaught exception. -/
theorem failing_attempt_outcome (st : UIState) (env : UploadEnv)
    (hfail : "Upload complete" ∉ (upload st env).alerts) :
    (upload st env).state.file = st.file ∧
    (upload st env).state.objects = st.objects ∧
    (((upload st env).alerts.length = 1 ∧ (upload st env).thrown = none ∧
        (upload st env).state.progress = st.progress) ∨
      ((upload st env).alerts = [] ∧ (upload st env).thrown ≠ none)) := by
  unfold upload at hfail ⊢
  cases hst : st.file with
  | none =>
    dsimp only []
    exact ⟨hst, rfl, .inl ⟨rfl, rfl, rfl⟩⟩
  | some f =>
    rw [hst] at hfail
    dsimp only [] at hfail ⊢
    by_cases hsz : f.byteSize > maxSize
    · rw [if_pos hsz]
      exact ⟨hst, rfl, .inl ⟨rfl, rfl, rfl⟩⟩
    · rw [if_neg hsz] at hfail ⊢
      cases hp : env.presign with
      | reject =>
        dsimp only []
        exact ⟨hst, rfl, .inr ⟨rfl, by simp⟩⟩
      | resp s pb =>
        rw [hp] at hfail
        cases pb with
        | none =>
          dsimp only []
          exact ⟨hst, rfl, .inr ⟨rfl, by simp⟩⟩
        | some b =>
          dsimp only [] at hfail ⊢
          by_cases hu : urlTruthy b = true
          · rw [if_pos hu] at hfail ⊢
            cases hres : (putWithProgress (b.url.getD "") f env.transport).result with
            | rejected msg =>
              dsimp only []
              exact ⟨rfl, rfl, .inr ⟨rfl, by simp⟩⟩
            | resolved =>
              rw [hres] at hfail
              dsimp only [] at hfail
              split at hfail <;> simp at hfail
          · rw [if_neg hu]
            exact ⟨hst, rfl, .inl ⟨rfl, rfl, rfl⟩⟩

/-- Witness for the amended C2 at the no-candidate failure. -/
theorem failing_attempt_outcome_witness :
    (upload initialState envHappy).state.file = initialState.file ∧
    (upload initialState envHappy).state.objects = initialState.objects ∧
    (((upload initialState envHappy).alerts.length = 1 ∧
        (upload initialState envHappy).thrown = none ∧
        (upload initialState envHappy).state.progress = initialState.progress) ∨
      ((upload initialState envHappy).alerts = [] ∧
        (upload initialState envHappy).thrown ≠ none)) :=
  failing_attempt_outcome initialState envHappy (by decide)

/-- Claim C6, counterexample: after a fully successful presign and
transport, a failing listing fetch does not replace the collection — the
spec's "fresh lister result" of a failed listing is the empty sequence
(stale entries discarded), but the code keeps the stale entry and the
fire-and-forget `refreshList` throws. -/
theorem lister_failure_keeps_stale_cex :
    (upload stSelected envListerDies).state.objects = [objOld] ∧
    (upload stSelected envListerDies).state.objects ≠
      specListerFreshResult envListerDies.lister ∧
    (upload stSelected envListerDies).thrown ≠ none := by
  refine ⟨rfl, ?_, ?_⟩ <;> decide

/-- Claim C6 as amended: for every candidate within the size limit whose
presign yields a truthy url and whose transport resolves, the orchestrator
ends with progress 0 and the selected candidate cleared to null; when the
listing fetch additionally returns a parsed JSON body, the object
collection is fully replaced (not merged) by that body's `objects` (or by
the empty list when the field is absent), with nothing thrown; when the
listing fetch yields no parsed body (an error), the stale collection is
retained unchanged and the refresh throws. -/
theorem upload_success_final_state (st : UIState) (env : UploadEnv)
    (f : Candidate) (s : Nat) (b : PresignBody)
    (hf : st.file = some f) (hsz : f.byteSize ≤ maxSize)
    (hp : env.presign = .resp s (some b)) (hu : urlTruthy b = true)
    (hterm : (putWithProgress (b.url.getD "") f env.transport).result
        = .resolved) :
    (∀ lb : ListBody, apiGetList env.lister = .ok (some lb) →
      (upload st env).state =
        { file := none, progress := 0, objects := lb.objects.getD [] } ∧
      (upload st env).alerts = ["Upload complete"] ∧
      (upload st env).thrown = none ∧
      (upload st env).calls =
        [.presignCall f.name f.mimeType,
         .putCall { method := "PUT", url := b.url.getD "",
                    contentType := contentTypeFor f.mimeType, body := f },
         .listCall]) ∧
    ((∀ lb : ListBody, apiGetList env.lister ≠ .ok (some lb)) →
      (upload st env).state.file = none ∧
      (upload st env).state.progress = 0 ∧
      (upload st env).state.objects = st.objects ∧
      (upload st env).thrown ≠ none) := by
  unfold upload
  rw [hf]
  dsimp only []
  rw [if_neg (by omega : ¬ f.byteSize > maxSize), hp]
  dsimp only []
  rw [if_pos hu, hterm]
  dsimp only []
  constructor
  · intro lb hl
    rw [show refreshList { file := none, progress := 0, objects := st.objects }
          env.lister
        = .ok { file := none, progress := 0, objects := lb.objects.getD [] } by
      unfold refreshList
      rw [hl]]
    exact ⟨rfl, rfl, rfl, rfl⟩
  · intro hbad
    cases hget : apiGetList env.lister with
    | error e =>
      rw [show refreshList { file := none, progress := 0, objects := st.objects }
            env.lister = .error e by
        unfold refreshList
        rw [hget]]
      exact ⟨rfl, rfl, rfl, by simp⟩
    | ok o =>
      cases o with
      | none =>
        rw [show refreshList { file := none, progress := 0, objects := st.objects }
              env.lister
            = .error "TypeError: cannot read properties of null (reading objects)" by
          unfold refreshList
          rw [hget]]
        exact ⟨rfl, rfl, rfl, by simp⟩
      | some lb => exact absurd hget (hbad lb)

/-- Witness for the amended C6: the spec §8 happy path ends Idle with the
collection replaced by the fresh listing. -/
theorem upload_success_final_state_witness :
    (upload stSelected envHappy).state =
      { file := none, progress := 0, objects := [objEx] } ∧
    (upload stSelected envHappy).alerts = ["Upload complete"] ∧
    (upload stSelected envHappy).thrown = none := by
  have h := (upload_success_final_state stSelected envHappy candEx 200
      { url := some "https://store.example/abc" }
      rfl (by decide) rfl (by decide) (by decide)).1
      { objects := some [objEx] } rfl
  exact ⟨h.1, h.2.1, h.2.2.1⟩

end UploadFlow
